import Mathlib

/-!
Shallow embedding of `ilastik/applets/cnnPixelClassification/opCNNPixelClassification.py`
(the top-level CNN pixel-classification operator) and, where the deciding code lives
outside `src/` (lazyflow operators, the multi-lane wrapper, volumina color tables),
models written from the specification, each marked `Modelled from the spec:`.
-/

namespace CNNPix

/-- Axis keys of a tagged shape (`vigra` axistags as used by the operator). -/
inductive Axis
  | t | z | y | x | c
deriving DecidableEq

instance : Inhabited Axis := ⟨Axis.t⟩

/-- `meta.getTaggedShape()`: an ordered association of axis keys to extents
(an `OrderedDict` in the source). -/
abbrev TaggedShape := List (Axis × Nat)

/-- Lookup of `tagged_shape[axis]`; `none` models a Python `KeyError`. -/
def lookupAxis (s : TaggedShape) (a : Axis) : Option Nat :=
  (s.find? (fun p => p.1 == a)).map (·.2)

/-- `del tagged_shape['t']` (removes the time key if present). -/
def delT (s : TaggedShape) : TaggedShape :=
  s.filter (fun p => !(p.1 == Axis.t))

/-- Errors surfaced by the pipeline: `DatasetConstraintError` (with its message),
a Python `KeyError` from a missing axis key, and a failed `assert`. -/
inductive PipelineError
  | datasetConstraint (msg : String)
  | keyError
  | assertionError
deriving DecidableEq

def PipelineError.isDatasetConstraint : PipelineError → Bool
  | .datasetConstraint _ => true
  | _ => false

/-- The `for i, slot in enumerate(self.InputImages): if slot.ready() and i != laneIndex:
validShape = slot.meta.getTaggedShape(); break` loop of `_checkConstraints`:
first ready lane whose index differs from `laneIndex`, counting from `i`. -/
def firstOtherReady : List (Option TaggedShape) → Nat → Nat → Option TaggedShape
  | [], _, _ => none
  | some s :: rest, laneIndex, i =>
      if i ≠ laneIndex then some s else firstOtherReady rest laneIndex (i + 1)
  | none :: rest, laneIndex, i => firstOtherReady rest laneIndex (i + 1)

/-- `OpCNNPixelClassification._checkConstraints(laneIndex)`. Lanes are the
`InputImages` multi-slot: `none` is a not-ready slot, `some sh` a ready slot with
tagged shape `sh`. Returns without error if the lane is not ready; otherwise
compares channel count and (t-less) dimensionality against the first other
ready lane (defaulting to the lane itself when no other lane is ready). -/
def checkConstraints (lanes : List (Option TaggedShape)) (laneIndex : Nat) :
    Except PipelineError Unit :=
  match lanes.getD laneIndex none with
  | none => .ok ()
  | some thisShape0 =>
    let validShape0 := (firstOtherReady lanes laneIndex 0).getD thisShape0
    let thisShape := delT thisShape0
    let validShape := delT validShape0
    match lookupAxis validShape Axis.c, lookupAxis thisShape Axis.c with
    | some cv, some ct =>
      if cv ≠ ct then
        .error (.datasetConstraint
          s!"All input images must have the same number of channels.  Your new image has {ct} channel(s), but your other images have {cv} channel(s).")
      else if validShape.length ≠ thisShape.length then
        .error (.datasetConstraint
          s!"All input images must have the same dimensionality.  Your new image has {thisShape.length} dimensions (including channel), but your other images have {validShape.length} dimensions.")
      else .ok ()
    | _, _ => .error .keyError

/-- Adding a lane and supplying its image: the new slot is appended and, on
`notifyReady`, `handleNewInputImage` runs `_checkConstraints` on the new index.
Modelled from the spec: the rejection step — "surfaced to the caller synchronously
at lane-add time ... the lane addition is rejected" — lives in the applet framework
outside `src/`, so a failed check leaves the original lane list. -/
def tryAddLane (lanes : List (Option TaggedShape)) (newShape : TaggedShape) :
    Except PipelineError (List (Option TaggedShape)) :=
  let lanes' := lanes ++ [some newShape]
  match checkConstraints lanes' lanes.length with
  | .ok _ => .ok lanes'
  | .error e => .error e

/-- The lane list the pipeline holds after an attempted addition (the original
list when the constraint check rejected the new lane). -/
def addLaneResult (lanes : List (Option TaggedShape)) (newShape : TaggedShape) :
    List (Option TaggedShape) :=
  match tryAddLane lanes newShape with
  | .ok l => l
  | .error _ => lanes

/-- The external classifier factory (`TikTorchLazyflowClassifierFactory`, outside
`src/`): `determineBlockShape([x_extent, y_extent], train)` is modelled as two
functions of the x and y extents returning the preferred tile, a pair since the
source indexes the result only at `[0]` and `[1]`. -/
structure ClassifierFactory where
  tileTrain : Nat → Nat → Nat × Nat
  tileInfer : Nat → Nat → Nat × Nat

/-- `OpBlockShape.setup_train`. The source first copies the tagged shape with
`c` (and `t`, if present) forced to 1 and computes `determineBlockShape(..., 40 ** 3)`,
but both results are dead: the block shape is immediately overwritten by the
factory's `determineBlockShape([x, y], train=True)` and the function returns the
fixed tuple `(1, *block_shape, 1)`, independent of the image's axis order.
`none` models the `KeyError` when the image lacks an `x` or `y` axis. -/
def setup_train (ts : TaggedShape) (factory : ClassifierFactory) : Option (List Nat) := do
  let xe ← lookupAxis ts Axis.x
  let ye ← lookupAxis ts Axis.y
  let bs := factory.tileTrain xe ye
  pure [1, bs.1, bs.2, 1]

/-- `blockDimsX[k]` of `OpBlockShape.setup_inference` (pairs as in the source;
the result uses component `[1]`). -/
def blockDimsX (bs : Nat × Nat) : Axis → Nat × Nat
  | .t => (1, 1)
  | .z => (bs.1, bs.2)
  | .y => (bs.1, bs.2)
  | .x => (1, 1)
  | .c => (100, 100)

/-- `blockDimsY[k]` of `OpBlockShape.setup_inference`. -/
def blockDimsY (bs : Nat × Nat) : Axis → Nat × Nat
  | .t => (1, 1)
  | .z => (bs.1, bs.2)
  | .y => (1, 1)
  | .x => (bs.1, bs.2)
  | .c => (100, 100)

/-- `blockDimsZ[k]` of `OpBlockShape.setup_inference`. -/
def blockDimsZ (bs : Nat × Nat) : Axis → Nat × Nat
  | .t => (1, 1)
  | .z => (1, 1)
  | .y => (bs.1, bs.2)
  | .x => (bs.1, bs.2)
  | .c => (100, 100)

/-- `OpBlockShape.setup_inference`: three block shapes listed in the image's
axis order, built from `blockDims{X,Y,Z}[k][1]`. -/
def setup_inference (ts : TaggedShape) (factory : ClassifierFactory) :
    Option (List Nat × List Nat × List Nat) := do
  let xe ← lookupAxis ts Axis.x
  let ye ← lookupAxis ts Axis.y
  let bs := factory.tileInfer xe ye
  let axisOrder := ts.map (·.1)
  pure (axisOrder.map (fun k => (blockDimsX bs k).2),
        axisOrder.map (fun k => (blockDimsY bs k).2),
        axisOrder.map (fun k => (blockDimsZ bs k).2))

/-- Modelled from the spec: `volumina.colortables.default16_new`, the default
16-entry color table (colors abstracted to distinct codes; only the entry count
matters to the claims). `volumina` is not under `src/`. -/
def default16_new : List Nat :=
  [0, 1, 2, 3, 4, 5, 6, 7, 8, 9, 10, 11, 12, 13, 14, 15]

/-- Python list slicing `l[a:b]` for non-negative bounds. -/
def pySlice (a b : Nat) (l : List Nat) : List Nat :=
  (l.take b).drop a

/-- The GUI-persisted label metadata triple (`LabelNames`, `LabelColors`,
`PmapColors` slot values). -/
structure LabelMeta where
  labelNames : List String
  labelColors : List Nat
  pmapColors : List Nat
deriving DecidableEq

/-- `OpCNNPixelClassification.importLabels(laneIndex, slot)` after
`ingestData` returned `new_max`: when `new_max` exceeds the current name count,
appends `"Label {old_max+1}" .. "Label {new_max}"` to the names and
`default16_new[old_max:new_max]` to both color lists. -/
def importLabels (m : LabelMeta) (new_max : Nat) : LabelMeta :=
  let old_max := m.labelNames.length
  if new_max > old_max then
    { labelNames := m.labelNames ++
        ((List.range' (old_max + 1) (new_max - old_max)).map (fun x => s!"Label {x}")),
      labelColors := m.labelColors ++ pySlice old_max new_max default16_new,
      pmapColors := m.pmapColors ++ pySlice old_max new_max default16_new }
  else m

/-- `OpCNNPixelClassification.setupCaches`: the shape given to the lane's
`LabelInputs` slot — the image shape with the channel extent forced to 1
(unchanged when no channel axis exists; the `try/except` around
`axistags.index('c')`). -/
def labelInputShape (s : TaggedShape) : TaggedShape :=
  match s.findIdx? (fun p => p.1 == Axis.c) with
  | some i => s.set i (Axis.c, 1)
  | none => s

/-- Lengths of the operator's multi-lane slots. -/
structure SlotSizes where
  inputImages : Nat
  labelInputs : Nat
  bookmarks : Nat
  labelImages : Nat
  nonzeroLabelBlocks : Nat
  predictionProbabilities : Nat
  cachedPredictionProbabilities : Nat
  predictionProbabilityChannels : Nat
deriving DecidableEq

/-- `inputResizeHandler(slot, oldsize, newsize)` registered on
`InputImages.notifyResized`: when the new size is 0, resizes `Bookmarks`,
`LabelImages`, `NonzeroLabelBlocks`, `PredictionProbabilities` and
`CachedPredictionProbabilities` to 0 (those five slots, exactly). -/
def inputResizeHandler (s : SlotSizes) (newsize : Nat) : SlotSizes :=
  if newsize = 0 then
    { s with bookmarks := 0, labelImages := 0, nonzeroLabelBlocks := 0,
             predictionProbabilities := 0, cachedPredictionProbabilities := 0 }
  else s

/-- Modelled from the spec: "Output multi-slots will auto-sync via the graph"
(source comment) — the outputs connected through `OpMultiLaneWrapper` (which
lives outside `src/`) track the lane count of `InputImages`, as does
`LabelInputs` via its `connect` and the cross-sync handlers. -/
def graphAutoSync (s : SlotSizes) : SlotSizes :=
  { s with labelInputs := s.inputImages,
           labelImages := s.inputImages,
           nonzeroLabelBlocks := s.inputImages,
           predictionProbabilities := s.inputImages,
           cachedPredictionProbabilities := s.inputImages,
           predictionProbabilityChannels := s.inputImages }

/-- A resize of the `InputImages` multi-slot: the new length takes effect, the
registered `inputResizeHandler` fires, and the graph auto-sync propagates. -/
def resizeInputImages (s : SlotSizes) (newsize : Nat) : SlotSizes :=
  graphAutoSync (inputResizeHandler { s with inputImages := newsize } newsize)

/-- Per-lane pipeline state for the lane lifecycle: the `InputImages` slots
(`none` = no data yet), the `LabelInputs` slots kept in index-sync, the
`Bookmarks` values, and each lane's sparse label store (as a list of committed
(coordinate, label) writes). -/
structure LaneState where
  inputImages : List (Option TaggedShape)
  labelInputs : List Unit
  bookmarks : List (Option (List Nat))
  labelStores : List (List (Nat × Nat))
deriving DecidableEq

/-- `OpCNNPixelClassification.addLane(laneIndex)`: asserts
`laneIndex == len(InputImages)` (append-only), resizes `InputImages` and
`Bookmarks` to one more, and sets the new bookmark value to `[]`. The
cross-sync handlers registered in `__init__` grow `LabelInputs` in the same
step. Modelled from the spec: the new lane's empty label store — the per-lane
`OpLabelPipeline` is created by `OpMultiLaneWrapper`, outside `src/`
("initializes an empty label store ... for the new lane"). -/
def addLane (s : LaneState) (laneIndex : Nat) : Except PipelineError LaneState :=
  let numLanes := s.inputImages.length
  if laneIndex ≠ numLanes then .error .assertionError
  else .ok { inputImages := s.inputImages ++ [none],
             labelInputs := s.labelInputs ++ [()],
             bookmarks := s.bookmarks ++ [some []],
             labelStores := s.labelStores ++ [[]] }

/-- A block of per-class probability values (bytes abstracted to naturals). -/
abbrev Block := List Nat

/-- A trained classifier: its per-block prediction behaviour (the opaque model;
block index → probability block). -/
structure ClassifierModel where
  predictBlock : Nat → Block

/-- The classifier slot value: `none` is the "no classifier" sentinel. -/
abbrev Classifier := Option ClassifierModel

/-- Modelled from the spec: `OpClassifierPredict` (lazyflow, outside `src/`) —
"predict(rawImageBlock, classifierInstance, numClasses) -> probabilityBlock";
the sentinel yields "an all-zero ... probability volume of the expected number
of classes, not an error". -/
def opClassifierPredict (clf : Classifier) (numClasses : Nat) (i : Nat) : Block :=
  match clf with
  | none => List.replicate numClasses 0
  | some m => m.predictBlock i

/-- `OpPredictionPipelineNoCache.cacheless_predict`: an `OpClassifierPredict`
whose `Classifier`, `Image` and `LabelsCount` connect to the pipeline's
`Classifier`, `FeatureImages` and `NumClasses` slots — the `PredictionProbabilities`
value at one block. -/
def cachelessPrediction (clf : Classifier) (numClasses : Nat) (i : Nat) : Block :=
  opClassifierPredict clf numClasses i

/-- State of the per-lane prediction cache (`OpSlicedBlockedArrayCache`,
outside `src/`): stored blocks and the recorded invalidations. -/
structure BlockCache where
  stored : Nat → Option Block
  dirty : Nat → Bool

/-- Modelled from the spec: a read of the blocked cache (`fixAtCurrent` =
`frozen`). While frozen, the stored value is served and recomputation is
deferred (a missing block is served from upstream without being stored);
unfrozen, a clean stored block is served and a missing or invalidated block is
recomputed from upstream and stored. -/
def cacheRead (upstream : Nat → Block) (frozen : Bool) (c : BlockCache) (i : Nat) :
    Block × BlockCache :=
  if frozen then
    (match c.stored i with
     | some v => v
     | none => upstream i, c)
  else
    match c.stored i, c.dirty i with
    | some v, false => (v, c)
    | _, _ =>
      let v := upstream i
      (v, { stored := fun j => if j = i then some v else c.stored j,
            dirty := fun j => if j = i then false else c.dirty j })

/-- State of the classifier cache (`OpValueCache` with `fixAtCurrent` connected
to `FreezePredictions`): the stored classifier and whether upstream invalidated it. -/
structure ValueCache where
  stored : Classifier
  dirty : Bool

/-- Modelled from the spec: a read of the classifier value cache. While frozen
("Not recomputed while the freeze flag is set — the previous cached instance
continues to be served") the stored value is returned; unfrozen, an invalidated
value is retrained from upstream and stored. -/
def valueCacheRead (upstream : Unit → Classifier) (frozen : Bool) (c : ValueCache) :
    Classifier × ValueCache :=
  if frozen then (c.stored, c)
  else if c.dirty then
    let v := upstream ()
    (v, { stored := v, dirty := false })
  else (c.stored, c)

/-- One lane of the frozen-prediction pipeline: the committed label edits, the
classifier cache, the prediction cache, and the `FreezePredictions` flag (wired
to `fixAtCurrent` of both caches). -/
structure PredPipeline where
  labels : List (Nat × Nat)
  clfCache : ValueCache
  predCache : BlockCache
  frozen : Bool

/-- A label edit: the write is committed to the label store and the dirty
notification propagates — the classifier cache and every prediction block are
invalidated (recorded; recomputation is deferred while frozen). -/
def setLabel (s : PredPipeline) (coord val : Nat) : PredPipeline :=
  { s with labels := (coord, val) :: s.labels,
           clfCache := { s.clfCache with dirty := true },
           predCache := { s.predCache with dirty := fun _ => true } }

/-- A sequence of label edits applied in order. -/
def applyEdits (s : PredPipeline) (es : List (Nat × Nat)) : PredPipeline :=
  es.foldl (fun st e => setLabel st e.1 e.2) s

/-- A read of `CachedPredictionProbabilities` at block `i`: the classifier is
pulled through the classifier cache (upstream = `train` on the current labels),
predictions are computed by `OpClassifierPredict` from that classifier, and the
block is pulled through the prediction cache. -/
def readPrediction (train : List (Nat × Nat) → Classifier) (numClasses : Nat)
    (s : PredPipeline) (i : Nat) : Block × PredPipeline :=
  let p := valueCacheRead (fun _ => train s.labels) s.frozen s.clfCache
  let q := cacheRead (opClassifierPredict p.1 numClasses) s.frozen s.predCache i
  (q.1, { s with clfCache := p.2, predCache := q.2 })

/-- Whether `addLane` succeeded (the `assert` did not fire). -/
def addLaneOk (s : LaneState) (j : Nat) : Bool :=
  match addLane s j with
  | .ok _ => true
  | .error _ => false

/-- The pipeline state after `addLane` (unchanged when the `assert` fired). -/
def laneAfterAdd (s : LaneState) (j : Nat) : LaneState :=
  match addLane s j with
  | .ok s' => s'
  | .error _ => s

/-- Whether the attempted lane addition failed with a `DatasetConstraintError`. -/
def failsWithConstraint (lanes : List (Option TaggedShape)) (newShape : TaggedShape) : Bool :=
  match tryAddLane lanes newShape with
  | .error (.datasetConstraint _) => true
  | _ => false

/-! ## Helper lemmas -/

theorem applyEdits_preserves (s : PredPipeline) (es : List (Nat × Nat)) :
    (applyEdits s es).frozen = s.frozen ∧
    (applyEdits s es).clfCache.stored = s.clfCache.stored ∧
    (applyEdits s es).predCache.stored = s.predCache.stored := by
  induction es generalizing s with
  | nil => exact ⟨rfl, rfl, rfl⟩
  | cons e rest ih =>
    have h := ih (setLabel s e.1 e.2)
    simpa [applyEdits, setLabel] using h

/-- `firstOtherReady` over the list with the new lane appended at the excluded
index returns the first ready entry of the original list. -/
theorem firstOtherReady_concat (sh : TaggedShape) :
    ∀ (l : List (Option TaggedShape)) (i n : Nat), i + l.length = n →
      firstOtherReady (l ++ [some sh]) n i = l.findSome? id := by
  intro l
  induction l with
  | nil =>
    intro i n h
    have hin : i = n := by simpa using h
    subst hin
    simp [firstOtherReady, List.findSome?_nil]
  | cons a rest ih =>
    intro i n h
    cases a with
    | some s =>
      have hne : i ≠ n := by simp at h; omega
      simp [firstOtherReady, hne, List.findSome?_cons]
    | none =>
      have : (i + 1) + rest.length = n := by simp at h; omega
      simp only [List.cons_append, firstOtherReady, List.findSome?_cons]
      exact ih (i + 1) n this

/-- A ready lane in the list means `findSome? id` returns some ready lane. -/
theorem findSome?_id_of_mem (sh : TaggedShape) :
    ∀ l : List (Option TaggedShape), some sh ∈ l →
      ∃ s0, l.findSome? id = some s0 ∧ some s0 ∈ l := by
  intro l
  induction l with
  | nil => intro h; simp at h
  | cons a rest ih =>
    intro h
    cases a with
    | some s => exact ⟨s, by simp [List.findSome?_cons], by simp⟩
    | none =>
      have hmem : some sh ∈ rest := by simpa using h
      rcases ih hmem with ⟨s0, hs0, hs0m⟩
      exact ⟨s0, by simpa [List.findSome?_cons] using hs0, by simp [hs0m]⟩

/-- Deleting the time key does not change the channel lookup. -/
theorem lookupAxis_delT_c (s : TaggedShape) :
    lookupAxis (delT s) Axis.c = lookupAxis s Axis.c := by
  induction s with
  | nil => rfl
  | cons p rest ih =>
    by_cases hp : p.1 = Axis.t
    · have hc : (p.1 == Axis.c) = false := by simp [hp]
      simp [delT, lookupAxis, List.filter_cons, hp, List.find?_cons, hc] at *
      exact ih
    · have ht : (p.1 == Axis.t) = false := by simp [hp]
      cases hc : (p.1 == Axis.c) with
      | true =>
        simp [delT, lookupAxis, List.filter_cons, ht, List.find?_cons, hc]
      | false =>
        simp [delT, lookupAxis, List.filter_cons, ht, List.find?_cons, hc] at *
        exact ih

/-- `labelInputShape` on a cons: the head is replaced when it carries the
channel axis, otherwise the replacement happens in the tail. -/
theorem labelInputShape_cons (p : Axis × Nat) (rest : TaggedShape) :
    labelInputShape (p :: rest) =
      if p.1 == Axis.c then (Axis.c, 1) :: rest else p :: labelInputShape rest := by
  unfold labelInputShape
  rw [List.findIdx?_cons]
  cases hp : (p.1 == Axis.c) with
  | true =>
    simp only [hp, if_true]
    rfl
  | false =>
    simp only [hp, if_false, Bool.false_eq_true, List.findIdx?_succ]
    cases h2 : List.findIdx? (fun q => q.1 == Axis.c) rest with
    | none => simp
    | some j => simp [List.set_cons_succ]

/-- A successful `findIdx?` (accumulator 0) returns an index below the length. -/
theorem findIdx?_lt_length {α : Type} (pred : α → Bool) :
    ∀ (l : List α) (i : Nat), List.findIdx? pred l = some i → i < l.length := by
  intro l
  induction l with
  | nil => intro i h; simp [List.findIdx?_nil] at h
  | cons p rest ih =>
    intro i h
    rw [List.findIdx?_cons] at h
    by_cases hp : pred p = true
    · rw [if_pos hp] at h
      cases h
      simp
    · rw [if_neg hp, List.findIdx?_succ] at h
      rcases Option.map_eq_some'.mp h with ⟨j, hj, hji⟩
      have := ih j hj
      simp [← hji]
      omega

theorem labelInputShape_length (s : TaggedShape) :
    (labelInputShape s).length = s.length := by
  unfold labelInputShape
  cases h : List.findIdx? (fun p => p.1 == Axis.c) s with
  | none => rfl
  | some i => exact List.length_set ..

/-- A successful `findIdx?` (accumulator 0) finds an element satisfying the
predicate at the returned index. -/
theorem findIdx?_pred_true {α : Type} (pred : α → Bool) :
    ∀ (l : List α) (j : Nat), List.findIdx? pred l = some j →
      ∃ a, l[j]? = some a ∧ pred a = true := by
  intro l
  induction l with
  | nil => intro j h; simp [List.findIdx?_nil] at h
  | cons p rest ih =>
    intro j h
    rw [List.findIdx?_cons] at h
    by_cases hp : pred p = true
    · rw [if_pos hp] at h
      cases h
      exact ⟨p, by simp, hp⟩
    · rw [if_neg hp, List.findIdx?_succ] at h
      rcases Option.map_eq_some'.mp h with ⟨m, hm, hmj⟩
      rcases ih m hm with ⟨a, ha, hpa⟩
      exact ⟨a, by simp [← hmj, ha], hpa⟩

theorem labelInputShape_getD_ne_c (s : TaggedShape) (i : Nat)
    (h : (s.getD i default).1 ≠ Axis.c) :
    (labelInputShape s).getD i default = s.getD i default := by
  unfold labelInputShape
  cases hf : List.findIdx? (fun p => p.1 == Axis.c) s with
  | none => rfl
  | some j =>
    by_cases hij : j = i
    · subst hij
      exfalso
      rcases findIdx?_pred_true _ s j hf with ⟨a, ha, hpa⟩
      have hja : s.getD j default = a := by
        rw [List.getD_eq_getElem?_getD, ha]
        rfl
      exact h (by rw [hja]; exact beq_iff_eq.mp hpa)
    · rw [List.getD_eq_getElem?_getD, List.getElem?_set_ne hij,
          ← List.getD_eq_getElem?_getD]

theorem labelInputShape_getD_at_c (s : TaggedShape) (i : Nat)
    (h : List.findIdx? (fun p => p.1 == Axis.c) s = some i) :
    (labelInputShape s).getD i default = (Axis.c, 1) := by
  unfold labelInputShape
  rw [h, List.getD_eq_getElem?_getD,
      List.getElem?_set_self (findIdx?_lt_length _ s i h)]
  rfl

theorem labelInputShape_no_c (s : TaggedShape)
    (h : List.findIdx? (fun p => p.1 == Axis.c) s = none) :
    labelInputShape s = s := by
  unfold labelInputShape
  rw [h]

/-! ## Claims -/

/-- C1: while `FreezePredictions` is true, any number of label edits followed
by a read of the cached prediction output returns a value identical to the
read taken immediately before the edits — both the frozen classifier cache and
the frozen prediction cache serve their stored values, so the recorded
invalidations do not surface. -/
theorem frozen_read_stable (train : List (Nat × Nat) → Classifier) (numClasses : Nat)
    (s : PredPipeline) (es : List (Nat × Nat)) (i : Nat) (h : s.frozen = true) :
    (readPrediction train numClasses (applyEdits s es) i).1
      = (readPrediction train numClasses s i).1 := by
  obtain ⟨hf, hc, hp⟩ := applyEdits_preserves s es
  simp [readPrediction, valueCacheRead, cacheRead, hf, hc, hp, h]

theorem frozen_read_stable_witness :
    (readPrediction (fun ls => some ⟨fun j => [ls.length, j]⟩) 2
        (applyEdits ⟨[], ⟨some ⟨fun j => [9, j]⟩, false⟩,
          ⟨fun _ => none, fun _ => false⟩, true⟩ [(5, 1), (6, 2)]) 0).1
      = (readPrediction (fun ls => some ⟨fun j => [ls.length, j]⟩) 2
          ⟨[], ⟨some ⟨fun j => [9, j]⟩, false⟩,
            ⟨fun _ => none, fun _ => false⟩, true⟩ 0).1 :=
  frozen_read_stable (fun ls => some ⟨fun j => [ls.length, j]⟩) 2
    ⟨[], ⟨some ⟨fun j => [9, j]⟩, false⟩, ⟨fun _ => none, fun _ => false⟩, true⟩
    [(5, 1), (6, 2)] 0 rfl

/-- C9: with the freeze flag off, reading any block through the cached path
(prediction cache over `OpClassifierPredict`) yields exactly the value of the
cacheless path on the same block for every non-sentinel classifier, provided
every clean stored block holds the value last computed by the same per-block
function; and the cache after the read again stores only values of that same
computation. -/
theorem cached_equals_cacheless (m : ClassifierModel) (numClasses i : Nat)
    (c : BlockCache)
    (hcoh : ∀ j v, c.stored j = some v → c.dirty j = false →
      v = opClassifierPredict (some m) numClasses j) :
    (cacheRead (opClassifierPredict (some m) numClasses) false c i).1
        = cachelessPrediction (some m) numClasses i ∧
    (∀ j v,
      (cacheRead (opClassifierPredict (some m) numClasses) false c i).2.stored j = some v →
      (cacheRead (opClassifierPredict (some m) numClasses) false c i).2.dirty j = false →
      v = opClassifierPredict (some m) numClasses j) := by
  constructor
  · cases hs : c.stored i with
    | none => cases hd : c.dirty i <;> simp [cacheRead, cachelessPrediction, hs, hd]
    | some v =>
      cases hd : c.dirty i with
      | false =>
        simp [cacheRead, cachelessPrediction, hs, hd]
        exact hcoh i v hs hd
      | true => simp [cacheRead, cachelessPrediction, hs, hd]
  · intro j v hsv hdv
    cases hs : c.stored i with
    | none =>
      cases hd : c.dirty i <;>
        · simp [cacheRead, hs, hd] at hsv hdv
          by_cases hji : j = i
          · subst hji
            simp at hsv
            exact hsv.symm
          · simp [hji] at hsv hdv
            exact hcoh j v hsv hdv
    | some w =>
      cases hd : c.dirty i with
      | false =>
        simp [cacheRead, hs, hd] at hsv hdv
        exact hcoh j v hsv hdv
      | true =>
        simp [cacheRead, hs, hd] at hsv hdv
        by_cases hji : j = i
        · subst hji
          simp at hsv
          exact hsv.symm
        · simp [hji] at hsv hdv
          exact hcoh j v hsv hdv

theorem cached_equals_cacheless_witness :
    (cacheRead (opClassifierPredict (some ⟨fun j => [j, j + 1]⟩) 2) false
        ⟨fun _ => none, fun _ => true⟩ 0).1
      = cachelessPrediction (some ⟨fun j => [j, j + 1]⟩) 2 0 :=
  (cached_equals_cacheless ⟨fun j => [j, j + 1]⟩ 2 0 ⟨fun _ => none, fun _ => true⟩
    (fun _ _ hs _ => nomatch hs)).1

/-- C2: when the new lane's image has a channel count or (t-less)
dimensionality different from an existing ready lane's — the existing ready
lanes being mutually consistent, the pipeline invariant — the attempted lane
addition fails with a `DatasetConstraintError` and the pipeline keeps its
original lane list (lane count unchanged). -/
theorem addLane_constraint_violation (lanes : List (Option TaggedShape))
    (newShape sh : TaggedShape)
    (hmem : some sh ∈ lanes)
    (hconsist : ∀ s1 s2 : TaggedShape, some s1 ∈ lanes → some s2 ∈ lanes →
      lookupAxis s1 Axis.c = lookupAxis s2 Axis.c ∧ (delT s1).length = (delT s2).length)
    (hcn : (lookupAxis newShape Axis.c).isSome)
    (hcs : (lookupAxis sh Axis.c).isSome)
    (hdiff : lookupAxis sh Axis.c ≠ lookupAxis newShape Axis.c ∨
             (delT sh).length ≠ (delT newShape).length) :
    failsWithConstraint lanes newShape = true ∧
    addLaneResult lanes newShape = lanes := by
  rcases findSome?_id_of_mem sh lanes hmem with ⟨s0, hs0, hs0m⟩
  have hgetD : (lanes ++ [some newShape]).getD lanes.length none = some newShape := by
    rw [List.getD_eq_getElem?_getD, List.getElem?_concat_length]
    rfl
  have hfor : firstOtherReady (lanes ++ [some newShape]) lanes.length 0
      = lanes.findSome? id :=
    firstOtherReady_concat newShape lanes 0 lanes.length (by omega)
  rcases Option.isSome_iff_exists.mp hcn with ⟨ct, hct⟩
  rcases Option.isSome_iff_exists.mp hcs with ⟨cs, hcsv⟩
  obtain ⟨hceq, hdeq⟩ := hconsist s0 sh hs0m hmem
  have hc0 : lookupAxis s0 Axis.c = some cs := by rw [hceq, hcsv]
  have hred : checkConstraints (lanes ++ [some newShape]) lanes.length =
      (if cs ≠ ct then
        Except.error (PipelineError.datasetConstraint
          s!"All input images must have the same number of channels.  Your new image has {ct} channel(s), but your other images have {cs} channel(s).")
      else if (delT s0).length ≠ (delT newShape).length then
        Except.error (PipelineError.datasetConstraint
          s!"All input images must have the same dimensionality.  Your new image has {(delT newShape).length} dimensions (including channel), but your other images have {(delT s0).length} dimensions.")
      else Except.ok ()) := by
    unfold checkConstraints
    rw [hgetD]
    simp only [hfor, hs0, Option.getD_some]
    rw [lookupAxis_delT_c, lookupAxis_delT_c, hc0, hct]
  have hcheck : ∃ msg, checkConstraints (lanes ++ [some newShape]) lanes.length
      = .error (.datasetConstraint msg) := by
    rw [hred]
    by_cases hcc : cs ≠ ct
    · rw [if_pos hcc]
      exact ⟨_, rfl⟩
    · rw [if_neg hcc]
      push_neg at hcc
      subst hcc
      have hdim : (delT s0).length ≠ (delT newShape).length := by
        rcases hdiff with hd1 | hd2
        · exact absurd (by rw [hcsv, hct]) hd1
        · omega
      rw [if_pos hdim]
      exact ⟨_, rfl⟩
  rcases hcheck with ⟨msg, hmsg⟩
  constructor
  · simp [failsWithConstraint, tryAddLane, hmsg]
  · simp [addLaneResult, tryAddLane, hmsg]

theorem addLane_constraint_violation_witness :
    failsWithConstraint [some [(Axis.y, 10), (Axis.x, 10), (Axis.c, 2)]]
        [(Axis.y, 5), (Axis.x, 5), (Axis.c, 3)] = true ∧
    addLaneResult [some [(Axis.y, 10), (Axis.x, 10), (Axis.c, 2)]]
        [(Axis.y, 5), (Axis.x, 5), (Axis.c, 3)]
      = [some [(Axis.y, 10), (Axis.x, 10), (Axis.c, 2)]] :=
  addLane_constraint_violation [some [(Axis.y, 10), (Axis.x, 10), (Axis.c, 2)]]
    [(Axis.y, 5), (Axis.x, 5), (Axis.c, 3)] [(Axis.y, 10), (Axis.x, 10), (Axis.c, 2)]
    (by decide)
    (by intro s1 s2 h1 h2
        simp at h1 h2
        subst h1
        subst h2
        exact ⟨rfl, rfl⟩)
    (by decide) (by decide) (by left; decide)

/-- C10: for every lane index whose `InputImages` slot is not ready,
`_checkConstraints` returns without raising any error — the constraint check is
only enforced for lanes whose image input is ready. -/
theorem checkConstraints_skips_unready (lanes : List (Option TaggedShape))
    (laneIndex : Nat) (h : lanes.getD laneIndex none = none) :
    checkConstraints lanes laneIndex = .ok () := by
  unfold checkConstraints
  rw [h]

theorem checkConstraints_skips_unready_witness :
    checkConstraints [some [(Axis.c, 1)], none] 1 = .ok () :=
  checkConstraints_skips_unready [some [(Axis.c, 1)], none] 1 rfl

/-- C6: when the `InputImages` multi-slot is resized to length zero, the
`Bookmarks`, `LabelImages`, `NonzeroLabelBlocks`, `PredictionProbabilities`,
`CachedPredictionProbabilities` and `PredictionProbabilityChannels` multi-slots
all end at length zero in the same step. -/
theorem resizeToEmpty_clears_outputs (s : SlotSizes) :
    (resizeInputImages s 0).bookmarks = 0 ∧
    (resizeInputImages s 0).labelImages = 0 ∧
    (resizeInputImages s 0).nonzeroLabelBlocks = 0 ∧
    (resizeInputImages s 0).predictionProbabilities = 0 ∧
    (resizeInputImages s 0).cachedPredictionProbabilities = 0 ∧
    (resizeInputImages s 0).predictionProbabilityChannels = 0 :=
  ⟨rfl, rfl, rfl, rfl, rfl, rfl⟩

/-- C3 counterexample: importing a volume whose maximum label id is 17 into a
pipeline with 2 label classes yields `LabelNames` of length 17, but
`LabelColors` only reaches length 16 — not the claimed 2 + (17 − 2) = 17
entries, because the default color table has only 16 entries. -/
theorem importLabels_colors_cap_cex :
    ((importLabels ⟨["Label 1", "Label 2"], [0, 1], [0, 1]⟩ 17).labelNames.length = 17) ∧
    ((importLabels ⟨["Label 1", "Label 2"], [0, 1], [0, 1]⟩ 17).labelColors.length = 16) ∧
    ¬((importLabels ⟨["Label 1", "Label 2"], [0, 1], [0, 1]⟩ 17).labelColors.length
        = 2 + (17 - 2)) := by
  decide

/-- C3 (amended): when the ingested maximum label id `new_max` exceeds the
current class count `k`, `LabelNames` ends with length exactly `new_max`: the
`k` old names followed by `new_max − k` newly synthesized names; `LabelColors`
and `PmapColors` are extended by `min(new_max, 16) − k` entries — the slice of
the 16-entry default color table — which equals `new_max − k` whenever
`new_max ≤ 16` (in particular in the max-id-5, 2-classes scenario). -/
theorem importLabels_extends (m : LabelMeta) (new_max : Nat)
    (h : m.labelNames.length < new_max) :
    ((importLabels m new_max).labelNames.length = new_max) ∧
    ((importLabels m new_max).labelNames.take m.labelNames.length = m.labelNames) ∧
    ((importLabels m new_max).labelNames.drop m.labelNames.length =
      (List.range' (m.labelNames.length + 1) (new_max - m.labelNames.length)).map
        (fun x => s!"Label {x}")) ∧
    ((importLabels m new_max).labelColors.length =
      m.labelColors.length + (min new_max 16 - m.labelNames.length)) ∧
    ((importLabels m new_max).pmapColors.length =
      m.pmapColors.length + (min new_max 16 - m.labelNames.length)) := by
  have e : importLabels m new_max =
      { labelNames := m.labelNames ++
          ((List.range' (m.labelNames.length + 1) (new_max - m.labelNames.length)).map
            (fun x => s!"Label {x}")),
        labelColors := m.labelColors ++ pySlice m.labelNames.length new_max default16_new,
        pmapColors := m.pmapColors ++ pySlice m.labelNames.length new_max default16_new } := by
    unfold importLabels
    rw [if_pos h]
  rw [e]
  refine ⟨?_, List.take_left _ _, List.drop_left _ _, ?_, ?_⟩
  · simp [List.length_append, List.length_range']
    omega
  · simp [pySlice, List.length_append, List.length_drop, List.length_take,
          show default16_new.length = 16 from rfl]
  · simp [pySlice, List.length_append, List.length_drop, List.length_take,
          show default16_new.length = 16 from rfl]

theorem importLabels_extends_witness :
    ((importLabels ⟨["Label 1", "Label 2"], [10, 11], [10, 11]⟩ 5).labelNames.length = 5) ∧
    ((importLabels ⟨["Label 1", "Label 2"], [10, 11], [10, 11]⟩ 5).labelNames.take 2
        = ["Label 1", "Label 2"]) ∧
    ((importLabels ⟨["Label 1", "Label 2"], [10, 11], [10, 11]⟩ 5).labelNames.drop 2
        = (List.range' 3 3).map (fun x => s!"Label {x}")) ∧
    ((importLabels ⟨["Label 1", "Label 2"], [10, 11], [10, 11]⟩ 5).labelColors.length
        = 2 + (min 5 16 - 2)) ∧
    ((importLabels ⟨["Label 1", "Label 2"], [10, 11], [10, 11]⟩ 5).pmapColors.length
        = 2 + (min 5 16 - 2)) :=
  importLabels_extends ⟨["Label 1", "Label 2"], [10, 11], [10, 11]⟩ 5 (by decide)

/-- C8 counterexample: for a lane with a 3-channel `(y, x, c)` image,
`setupCaches` gives the `LabelInputs` slot the shape with channel extent forced
to 1 — not a shape equal to the `InputImages` shape. -/
theorem labelInputShape_mismatch_cex :
    labelInputShape [(Axis.y, 520), (Axis.x, 697), (Axis.c, 3)] =
      [(Axis.y, 520), (Axis.x, 697), (Axis.c, 1)] ∧
    labelInputShape [(Axis.y, 520), (Axis.x, 697), (Axis.c, 3)] ≠
      [(Axis.y, 520), (Axis.x, 697), (Axis.c, 3)] := by
  decide

/-- C8 (amended): after `setupCaches`, the lane's `LabelInputs` shape has the
same number of axes as the `InputImages` shape and equals it on every entry
whose axis is not the channel; the (first) channel entry is set to extent 1;
when the image has no channel axis the two shapes are identical. -/
theorem labelInput_shape_matches_except_channel (s : TaggedShape) :
    (labelInputShape s).length = s.length ∧
    (∀ i, (s.getD i default).1 ≠ Axis.c →
      (labelInputShape s).getD i default = s.getD i default) ∧
    (∀ i, List.findIdx? (fun p => p.1 == Axis.c) s = some i →
      (labelInputShape s).getD i default = (Axis.c, 1)) ∧
    (List.findIdx? (fun p => p.1 == Axis.c) s = none → labelInputShape s = s) :=
  ⟨labelInputShape_length s,
   fun i h => labelInputShape_getD_ne_c s i h,
   fun i h => labelInputShape_getD_at_c s i h,
   fun h => labelInputShape_no_c s h⟩

/-- C7: `addLane(index)` succeeds exactly when `index` equals the current lane
count (append-only); on success the new lane's bookmark value is `[]`, its
label store is empty, and `InputImages` and `LabelInputs` are in index-sync at
the new length. -/
theorem addLane_append_only (s : LaneState) (j : Nat)
    (hli : s.labelInputs.length = s.inputImages.length)
    (hbm : s.bookmarks.length = s.inputImages.length)
    (hls : s.labelStores.length = s.inputImages.length) :
    (addLaneOk s j = true ↔ j = s.inputImages.length) ∧
    (j = s.inputImages.length →
      (laneAfterAdd s j).inputImages.length = s.inputImages.length + 1 ∧
      (laneAfterAdd s j).labelInputs.length = s.inputImages.length + 1 ∧
      (laneAfterAdd s j).bookmarks.getD j none = some [] ∧
      (laneAfterAdd s j).labelStores.getD j [(0, 0)] = []) := by
  by_cases hj : j = s.inputImages.length
  · subst hj
    refine ⟨by simp [addLaneOk, addLane], fun _ => ?_⟩
    have e : laneAfterAdd s s.inputImages.length =
        { inputImages := s.inputImages ++ [none],
          labelInputs := s.labelInputs ++ [()],
          bookmarks := s.bookmarks ++ [some []],
          labelStores := s.labelStores ++ [[]] } := by
      simp [laneAfterAdd, addLane]
    rw [e]
    refine ⟨by simp, by simp [hli], ?_, ?_⟩
    · show (s.bookmarks ++ [some []]).getD s.inputImages.length none = some []
      rw [List.getD_eq_getElem?_getD, ← hbm, List.getElem?_concat_length]
      rfl
    · show (s.labelStores ++ [[]]).getD s.inputImages.length [(0, 0)] = []
      rw [List.getD_eq_getElem?_getD, ← hls, List.getElem?_concat_length]
      rfl
  · exact ⟨by simp [addLaneOk, addLane, hj], fun h => absurd h hj⟩

theorem addLane_append_only_witness :
    addLaneOk ⟨[none], [()], [some [1]], [[(3, 1)]]⟩ 1 = true ∧
    (laneAfterAdd ⟨[none], [()], [some [1]], [[(3, 1)]]⟩ 1).inputImages.length = 2 ∧
    (laneAfterAdd ⟨[none], [()], [some [1]], [[(3, 1)]]⟩ 1).labelInputs.length = 2 ∧
    (laneAfterAdd ⟨[none], [()], [some [1]], [[(3, 1)]]⟩ 1).bookmarks.getD 1 none = some [] ∧
    (laneAfterAdd ⟨[none], [()], [some [1]], [[(3, 1)]]⟩ 1).labelStores.getD 1 [(0, 0)] = [] := by
  have h := addLane_append_only ⟨[none], [()], [some [1]], [[(3, 1)]]⟩ 1 rfl rfl rfl
  exact ⟨h.1.mpr rfl, (h.2 rfl).1, (h.2 rfl).2.1, (h.2 rfl).2.2.1, (h.2 rfl).2.2.2⟩

/-- C4 (code bug): for a `(y, x, c)` image with no time axis and a factory tile
of (64, 64), `setup_train` returns the fixed tuple `(1, 64, 64, 1)`: four
extents for a three-axis image, with value 64 — not 1 — at the position of the
channel axis. The source's own comment says c (and t) are forced to 1, but the
returned tuple ignores the image's axis order. -/
theorem setup_train_ignores_axes_bug :
    setup_train [(Axis.y, 520), (Axis.x, 697), (Axis.c, 3)]
        ⟨fun _ _ => (64, 64), fun _ _ => (64, 64)⟩ = some [1, 64, 64, 1] ∧
    List.findIdx? (fun p => p.1 == Axis.c)
        [(Axis.y, 520), (Axis.x, 697), (Axis.c, 3)] = some 2 ∧
    [1, 64, 64, 1].getD 2 0 ≠ 1 ∧
    [1, 64, 64, 1].length ≠ [(Axis.y, 520), (Axis.x, 697), (Axis.c, 3)].length := by
  decide

/-- C5: `setup_inference` yields exactly three block shapes, each listed in the
image's axis order: the first has extent 1 along x and the factory tile extent
along y and z, the second extent 1 along y and the tile extent along x and z,
the third extent 1 along z and the tile extent along x and y. -/
theorem setup_inference_thin_thick (ts : TaggedShape) (factory : ClassifierFactory)
    (xe ye : Nat) (hx : lookupAxis ts Axis.x = some xe)
    (hy : lookupAxis ts Axis.y = some ye) :
    ∃ sx sy sz, setup_inference ts factory = some (sx, sy, sz) ∧
      sx.length = ts.length ∧ sy.length = ts.length ∧ sz.length = ts.length ∧
      (∀ i, i < ts.length →
        ((ts.getD i default).1 = Axis.x →
          sx.getD i 0 = 1 ∧
          sy.getD i 0 = (factory.tileInfer xe ye).2 ∧
          sz.getD i 0 = (factory.tileInfer xe ye).2) ∧
        ((ts.getD i default).1 = Axis.y →
          sx.getD i 0 = (factory.tileInfer xe ye).2 ∧
          sy.getD i 0 = 1 ∧
          sz.getD i 0 = (factory.tileInfer xe ye).2) ∧
        ((ts.getD i default).1 = Axis.z →
          sx.getD i 0 = (factory.tileInfer xe ye).2 ∧
          sy.getD i 0 = (factory.tileInfer xe ye).2 ∧
          sz.getD i 0 = 1)) := by
  refine ⟨(ts.map (fun p => p.1)).map (fun k => (blockDimsX (factory.tileInfer xe ye) k).2),
          (ts.map (fun p => p.1)).map (fun k => (blockDimsY (factory.tileInfer xe ye) k).2),
          (ts.map (fun p => p.1)).map (fun k => (blockDimsZ (factory.tileInfer xe ye) k).2),
          ?_, by simp, by simp, by simp, ?_⟩
  · simp [setup_inference, hx, hy]
  · intro i hi
    have hsome : ts[i]? = some ts[i] := List.getElem?_eq_getElem hi
    have hgetD : ts.getD i default = ts[i] := by
      rw [List.getD_eq_getElem?_getD, hsome]
      rfl
    have hmap : ∀ f : Axis → Nat,
        ((ts.map (fun p => p.1)).map f).getD i 0 = f ts[i].1 := by
      intro f
      rw [List.getD_eq_getElem?_getD, List.getElem?_map, List.getElem?_map, hsome]
      rfl
    rw [hgetD]
    refine ⟨fun hax => ?_, fun hay => ?_, fun haz => ?_⟩
    · rw [hmap, hmap, hmap, hax]
      exact ⟨rfl, rfl, rfl⟩
    · rw [hmap, hmap, hmap, hay]
      exact ⟨rfl, rfl, rfl⟩
    · rw [hmap, hmap, hmap, haz]
      exact ⟨rfl, rfl, rfl⟩

theorem setup_inference_thin_thick_witness :
    ∃ sx sy sz,
      setup_inference [(Axis.t, 2), (Axis.z, 30), (Axis.y, 520), (Axis.x, 697), (Axis.c, 3)]
        ⟨fun _ _ => (32, 64), fun _ _ => (32, 64)⟩ = some (sx, sy, sz) ∧
      sx.length = 5 ∧ sy.length = 5 ∧ sz.length = 5 ∧
      (∀ i, i < 5 →
        (([(Axis.t, 2), (Axis.z, 30), (Axis.y, 520), (Axis.x, 697), (Axis.c, 3)].getD i default).1 = Axis.x →
          sx.getD i 0 = 1 ∧ sy.getD i 0 = 64 ∧ sz.getD i 0 = 64) ∧
        (([(Axis.t, 2), (Axis.z, 30), (Axis.y, 520), (Axis.x, 697), (Axis.c, 3)].getD i default).1 = Axis.y →
          sx.getD i 0 = 64 ∧ sy.getD i 0 = 1 ∧ sz.getD i 0 = 64) ∧
        (([(Axis.t, 2), (Axis.z, 30), (Axis.y, 520), (Axis.x, 697), (Axis.c, 3)].getD i default).1 = Axis.z →
          sx.getD i 0 = 64 ∧ sy.getD i 0 = 64 ∧ sz.getD i 0 = 1)) :=
  setup_inference_thin_thick
    [(Axis.t, 2), (Axis.z, 30), (Axis.y, 520), (Axis.x, 697), (Axis.c, 3)]
    ⟨fun _ _ => (32, 64), fun _ _ => (32, 64)⟩ 697 520 rfl rfl

theorem labelInput_shape_matches_except_channel_witness :
    (labelInputShape [(Axis.y, 520), (Axis.x, 697), (Axis.c, 3)]).getD 0 default
        = [(Axis.y, 520), (Axis.x, 697), (Axis.c, 3)].getD 0 default ∧
    (labelInputShape [(Axis.y, 520), (Axis.x, 697), (Axis.c, 3)]).getD 2 default
        = (Axis.c, 1) :=
  ⟨(labelInput_shape_matches_except_channel
      [(Axis.y, 520), (Axis.x, 697), (Axis.c, 3)]).2.1 0 (by decide),
   (labelInput_shape_matches_except_channel
      [(Axis.y, 520), (Axis.x, 697), (Axis.c, 3)]).2.2.1 2 (by decide)⟩

end CNNPix
